import Mathlib

/-!
Shallow embedding of the invitation + workspace-bootstrap core of the
team-nexus repository.

Sources:
* `create_workspace_with_owner` : plpgsql function in the SQL migration
  (atomic workspace + owner-membership creation).
* `team_invitations`, `workspace_members`, `workspaces` tables and their
  unique constraints, from the same migration.
* the `send-invitation` edge-function handler (the revision that returns
  `{ success, invitation, inviteUrl, emailSent }` and guards the email send
  with the RESEND_API_KEY check and a try/catch).
* `acceptInvitation` from the AcceptInvite page component.

The database is modelled as explicit state (lists of rows); each
Postgres/PostgREST call is a pure function on that state.  Unique
constraints are modelled inside the insert operations, which fail with a
`uniqueViolation` error (Postgres error code 23505) exactly when a
conflicting row exists.  Timestamps are `Int` (seconds); randomly generated
ids and tokens are passed in as explicit parameters, standing for the
database-side defaults `gen_random_uuid()` / `encode(gen_random_bytes(32), 'hex')`.
-/

/-- The `app_role` enum: 'owner', 'admin', 'member', 'viewer'. -/
inductive Role where
  | owner
  | admin
  | member
  | viewer
deriving DecidableEq, Repr

/-- A row of `public.workspaces`.  `slug` carries a UNIQUE constraint;
`created_by` references the creating profile. -/
structure Workspace where
  id : Nat
  name : String
  slug : String
  description : Option String
  created_by : Option Nat
deriving DecidableEq, Repr

/-- A row of `public.workspace_members`; the table has
UNIQUE(workspace_id, user_id). -/
structure WorkspaceMember where
  workspace_id : Nat
  user_id : Nat
  role : Role
deriving DecidableEq, Repr

/-- A row of `public.team_invitations`; the table has
UNIQUE(workspace_id, email) and UNIQUE(token); `expires_at` defaults to
creation time + 7 days; `accepted_at` is nullable. -/
structure Invitation where
  id : Nat
  workspace_id : Nat
  email : String
  role : Role
  token : String
  expires_at : Int
  accepted_at : Option Int
  created_at : Int
deriving DecidableEq, Repr

/-- The relational store: the three tables the core reads and writes. -/
structure DB where
  workspaces : List Workspace
  members : List WorkspaceMember
  invitations : List Invitation
deriving DecidableEq, Repr

/-- An authenticated user as seen by the client flow: `user.id` and the
(possibly absent) `user.email` from the auth provider. -/
structure User where
  id : Nat
  email : Option String
deriving DecidableEq, Repr

/-- Database errors the core branches on.  `uniqueViolation` is Postgres
error code 23505, the only failure mode of the modelled inserts. -/
inductive PgError where
  | uniqueViolation
deriving DecidableEq, Repr

/-- The `interval '7 days'` used for `expires_at`, in seconds. -/
def sevenDays : Int := 7 * 24 * 60 * 60

/-- INSERT INTO workspace_members: fails with 23505 when a row with the
same (workspace_id, user_id) already exists, per the UNIQUE constraint. -/
def DB.insertMember (db : DB) (m : WorkspaceMember) : Except PgError DB :=
  if db.members.any (fun x => x.workspace_id == m.workspace_id && x.user_id == m.user_id) then
    .error .uniqueViolation
  else
    .ok { db with members := m :: db.members }

/-- INSERT INTO team_invitations: fails with 23505 when a row with the same
(workspace_id, email) already exists, or one with the same token, per the
two UNIQUE constraints on the table. -/
def DB.insertInvitation (db : DB) (i : Invitation) : Except PgError DB :=
  if db.invitations.any (fun x => x.workspace_id == i.workspace_id && x.email == i.email)
      || db.invitations.any (fun x => x.token == i.token) then
    .error .uniqueViolation
  else
    .ok { db with invitations := i :: db.invitations }

/-- The acceptance-flow lookup:
`from("team_invitations").select().eq("token", token).is("accepted_at", null).single()`. -/
def DB.findInvitationByToken (db : DB) (t : String) : Option Invitation :=
  db.invitations.find? (fun i => i.token == t && i.accepted_at == none)

/-- The duplicate-fallback lookup of the invitation handler:
`.eq("workspace_id", workspaceId).eq("email", email.toLowerCase()).single()`.
Note that it does not filter on `accepted_at`. -/
def DB.findInvitationByPair (db : DB) (wsId : Nat) (emailLc : String) : Option Invitation :=
  db.invitations.find? (fun i => i.workspace_id == wsId && i.email == emailLc)

/-- UPDATE team_invitations SET accepted_at = now WHERE id = invId. -/
def DB.markAccepted (db : DB) (invId : Nat) (now : Int) : DB :=
  { db with invitations :=
      db.invitations.map (fun i => if i.id == invId then { i with accepted_at := some now } else i) }

/-- Errors raised by `create_workspace_with_owner`: the explicit
`RAISE EXCEPTION 'Not authenticated'` and a unique-constraint conflict
(slug, primary key, or membership pair), which aborts and rolls back the
whole plpgsql function body. -/
inductive BootstrapError where
  | unauthenticated
  | conflict
deriving DecidableEq, Repr

/-- The plpgsql function `public.create_workspace_with_owner(_name, _slug,
_description)`.  `authUid` is `auth.uid()` (none when the caller is not
authenticated); `freshWorkspaceId` stands for `gen_random_uuid()`.  The
function body runs in a single transaction, so any constraint violation
rolls the whole operation back and leaves the store unchanged. -/
def create_workspace_with_owner (db : DB) (authUid : Option Nat)
    (wname slug : String) (description : Option String) (freshWorkspaceId : Nat) :
    DB × Except BootstrapError Nat :=
  match authUid with
  | none => (db, .error .unauthenticated)
  | some uid =>
    if db.workspaces.any (fun w => w.slug == slug)
        || db.workspaces.any (fun w => w.id == freshWorkspaceId) then
      (db, .error .conflict)
    else
      let ws : Workspace :=
        { id := freshWorkspaceId, name := wname, slug := slug
          description := description, created_by := some uid }
      let db1 : DB := { db with workspaces := ws :: db.workspaces }
      if db1.members.any (fun m => m.workspace_id == freshWorkspaceId && m.user_id == uid) then
        (db, .error .conflict)
      else
        ({ db1 with members := ⟨freshWorkspaceId, uid, Role.owner⟩ :: db1.members },
         .ok freshWorkspaceId)

/-- States of the AcceptInvite page: `loading → {login_required | error | success}`. -/
inductive AcceptStatus where
  | loading
  | login_required
  | success
  | error
deriving DecidableEq, Repr

/-- Result of (one evaluation of) the acceptance flow: the store after the
flow, the component status, and the displayed message. -/
structure AcceptResult where
  db : DB
  status : AcceptStatus
  message : String
deriving DecidableEq, Repr

/-- The expiry check of `acceptInvitation`:
`new Date(invitation.expires_at) < new Date()` — strictly earlier than now. -/
def invitationExpired (inv : Invitation) (now : Int) : Bool :=
  inv.expires_at < now

/-- JavaScript's `String.prototype.toLowerCase()`, embedded as a
character-wise lowercase map. -/
def lowerStr (s : String) : String :=
  ⟨s.data.map Char.toLower⟩

/-- The email-mismatch check of `acceptInvitation`:
`user.email?.toLowerCase() !== invitation.email.toLowerCase()`; an absent
user email never matches. -/
def emailMismatch (u : User) (inv : Invitation) : Bool :=
  u.email.map lowerStr != some (lowerStr inv.email)

/-- The workspace name joined into the invitation select
(`workspace:workspaces(name)`); JavaScript renders a missing join as
`undefined` inside the success template string. -/
def workspaceNameOf (db : DB) (wsId : Nat) : String :=
  ((db.workspaces.find? (fun w => w.id == wsId)).map Workspace.name).getD "undefined"

/-- The `acceptInvitation` body of the AcceptInvite page, for a present
token and signed-in user: look up the invitation by token with
`accepted_at` null; check expiry; check the caller email; insert the
membership (23505 means already a member); then stamp `accepted_at` and
report success. -/
def acceptInvitation (db : DB) (token : String) (u : User) (now : Int) : AcceptResult :=
  match db.findInvitationByToken token with
  | none =>
    ⟨db, .error, "This invitation has expired or has already been used"⟩
  | some invitation =>
    if invitationExpired invitation now then
      ⟨db, .error, "This invitation has expired"⟩
    else if emailMismatch u invitation then
      ⟨db, .error, "This invitation was sent to " ++ invitation.email
          ++ ". Please sign in with that email address."⟩
    else
      match db.insertMember ⟨invitation.workspace_id, u.id, invitation.role⟩ with
      | .error .uniqueViolation =>
        ⟨db, .error, "You are already a member of this workspace"⟩
      | .ok db1 =>
        ⟨db1.markAccepted invitation.id now, .success,
         "You\x27ve been added to " ++ workspaceNameOf db invitation.workspace_id⟩

/-- The surrounding effect of the AcceptInvite page: a missing token is an
error, a missing authenticated user asks for login, otherwise the
invitation is accepted. -/
def acceptFlow (db : DB) (token : Option String) (u : Option User) (now : Int) : AcceptResult :=
  match token with
  | none => ⟨db, .error, "Invalid invitation link"⟩
  | some t =>
    match u with
    | none => ⟨db, .login_required, "Please sign in to accept this invitation"⟩
    | some usr => acceptInvitation db t usr now

/-- The JSON body of the send-invitation handler response: either
`{ success: true, invitation, inviteUrl, emailSent }` with HTTP 200, or
`{ error }` with HTTP 500. -/
inductive HandlerResponse where
  | success (invitation : Invitation) (inviteUrl : String) (emailSent : Bool)
  | failure (error : String)
deriving DecidableEq, Repr

/-- HTTP status of a handler response. -/
def statusCode : HandlerResponse → Nat
  | .success _ _ _ => 200
  | .failure _ => 500

/-- The parsed request body of the send-invitation function. -/
structure InvitationRequest where
  email : String
  workspaceId : Nat
  workspaceName : String
  role : Role
  inviterName : String
deriving DecidableEq, Repr

/-- Outcome of one handler invocation: the store afterwards, the HTTP
response, and whether an outbound email send was attempted at all. -/
structure HandlerResult where
  db : DB
  response : HandlerResponse
  emailAttempted : Bool
deriving DecidableEq, Repr

/-- The acceptance URL: `<origin>/accept-invite?token=<token>`, with the
origin header falling back to `https://flowboard.app`. -/
def inviteUrlFor (origin : Option String) (token : String) : String :=
  origin.getD "https://flowboard.app" ++ "/accept-invite?token=" ++ token

/-- The row the handler insert produces: the request's workspace id, the
lowercased email and role from the request, and the database-side defaults
(fresh id, fresh random token, `now() + interval '7 days'`, null
`accepted_at`). -/
def newInvitation (req : InvitationRequest) (freshId : Nat) (freshToken : String)
    (now : Int) : Invitation :=
  { id := freshId, workspace_id := req.workspaceId, email := lowerStr req.email
    role := req.role, token := freshToken, expires_at := now + sevenDays
    accepted_at := none, created_at := now }

/-- The send-invitation edge-function handler (POST path).  `apiKeyPresent`
models whether RESEND_API_KEY is set; `emailOk` models whether the
outbound send, when attempted, resolves.  Insert the invitation; on a
23505 unique violation fall back to fetching the existing row for
(workspace, lowercased email); in either success path build the acceptance
URL, attempt the email only when the key is present, swallow send
failures, and answer 200 with `{ success, invitation, inviteUrl,
emailSent }`; if the fallback fetch finds nothing, rethrow and answer 500. -/
def sendInvitation (db : DB) (req : InvitationRequest) (origin : Option String)
    (freshId : Nat) (freshToken : String) (now : Int)
    (apiKeyPresent : Bool) (emailOk : Bool) : HandlerResult :=
  let inv := newInvitation req freshId freshToken now
  match db.insertInvitation inv with
  | .ok db1 =>
    ⟨db1, .success inv (inviteUrlFor origin inv.token) (apiKeyPresent && emailOk),
     apiKeyPresent⟩
  | .error .uniqueViolation =>
    match db.findInvitationByPair req.workspaceId (lowerStr req.email) with
    | some existingInvite =>
      ⟨db, .success existingInvite (inviteUrlFor origin existingInvite.token)
          (apiKeyPresent && emailOk),
       apiKeyPresent⟩
    | none =>
      ⟨db, .failure "duplicate key value violates unique constraint", false⟩

/-- C1: the workspace bootstrap procedure is all-or-nothing: with a caller
and a fresh slug it inserts exactly one Workspace row (created_by = caller)
and exactly one owner WorkspaceMember row and returns the new id; without a
caller, or on a slug conflict, it fails and leaves the store unchanged. -/
theorem C1_bootstrap_atomic (db : DB) (uid : Nat) (wname slug : String)
    (description : Option String) (freshId : Nat) :
    (create_workspace_with_owner db none wname slug description freshId
        = (db, .error .unauthenticated))
    ∧ (db.workspaces.any (fun w => w.slug == slug) = true →
        create_workspace_with_owner db (some uid) wname slug description freshId
          = (db, .error .conflict))
    ∧ (db.workspaces.any (fun w => w.slug == slug) = false →
       db.workspaces.any (fun w => w.id == freshId) = false →
       db.members.any (fun m => m.workspace_id == freshId && m.user_id == uid) = false →
        create_workspace_with_owner db (some uid) wname slug description freshId
          = ({ workspaces :=
                 { id := freshId, name := wname, slug := slug
                   description := description, created_by := some uid } :: db.workspaces,
               members := ⟨freshId, uid, Role.owner⟩ :: db.members,
               invitations := db.invitations },
             .ok freshId)) := by
  refine ⟨rfl, ?_, ?_⟩
  · intro h
    simp [create_workspace_with_owner, h]
  · intro h1 h2 h3
    simp [create_workspace_with_owner, h1, h2, h3]

/-- Witness for C1 at a concrete store: an empty database, caller 5,
slug "acme", fresh id 1. -/
theorem C1_bootstrap_atomic_witness :
    create_workspace_with_owner ⟨[], [], []⟩ (some 5) "Acme" "acme" none 1
      = (⟨[{ id := 1, name := "Acme", slug := "acme",
             description := none, created_by := some 5 }],
          [⟨1, 5, Role.owner⟩], []⟩,
         .ok 1) :=
  (C1_bootstrap_atomic ⟨[], [], []⟩ 5 "Acme" "acme" none 1).2.2
    (by decide) (by decide) (by decide)

/-- C6 counterexample: an invitation whose `expires_at` equals the current
time is NOT treated as expired — acceptance proceeds and succeeds, because
the code's check `new Date(invitation.expires_at) < new Date()` is strict. -/
theorem C6_boundary_counterexample :
    (acceptInvitation
      (⟨[⟨1, "W", "w", none, some 2⟩], [],
        [⟨10, 1, "bob@x.com", Role.member, "tok", 100, none, 0⟩]⟩ : DB)
      "tok" ⟨7, some "bob@x.com"⟩ 100).status = AcceptStatus.success := by
  decide

/-- C6 amended: only an expiry timestamp strictly earlier than the current
time is treated as expired (yielding the terminal error "This invitation
has expired"); an expiry exactly equal to the current time is still valid,
since the expiry guard is a strict comparison. -/
theorem C6_boundary_amended (db : DB) (t : String) (u : User) (now : Int)
    (inv : Invitation) (hFind : db.findInvitationByToken t = some inv) :
    (inv.expires_at < now →
      acceptInvitation db t u now = ⟨db, .error, "This invitation has expired"⟩)
    ∧ invitationExpired inv inv.expires_at = false := by
  constructor
  · intro h
    simp [acceptInvitation, hFind, invitationExpired, h]
  · simp [invitationExpired]

/-- Witness for C6 at a concrete store: past expiry (100 < 101) the flow
errors with "expired", and expiry-equals-now is not flagged as expired. -/
theorem C6_boundary_amended_witness :
    (((⟨10, 1, "bob@x.com", Role.member, "tok", 100, none, 0⟩ : Invitation).expires_at < (101 : Int) →
      acceptInvitation
        (⟨[⟨1, "W", "w", none, some 2⟩], [],
          [⟨10, 1, "bob@x.com", Role.member, "tok", 100, none, 0⟩]⟩ : DB)
        "tok" ⟨7, some "bob@x.com"⟩ 101
        = ⟨⟨[⟨1, "W", "w", none, some 2⟩], [],
            [⟨10, 1, "bob@x.com", Role.member, "tok", 100, none, 0⟩]⟩,
           .error, "This invitation has expired"⟩)
    ∧ invitationExpired (⟨10, 1, "bob@x.com", Role.member, "tok", 100, none, 0⟩ : Invitation)
        (⟨10, 1, "bob@x.com", Role.member, "tok", 100, none, 0⟩ : Invitation).expires_at
        = false) :=
  C6_boundary_amended
    (⟨[⟨1, "W", "w", none, some 2⟩], [],
      [⟨10, 1, "bob@x.com", Role.member, "tok", 100, none, 0⟩]⟩ : DB)
    "tok" ⟨7, some "bob@x.com"⟩ 101
    (⟨10, 1, "bob@x.com", Role.member, "tok", 100, none, 0⟩ : Invitation)
    (by decide)

/-- C8: when the token lookup succeeds and the invitation is unexpired but
the caller's email does not case-insensitively match the invited email,
the flow ends in the error state with a message naming the invited
address, and the store — in particular the membership table — is
unchanged. -/
theorem C8_email_mismatch (db : DB) (t : String) (u : User) (now : Int)
    (inv : Invitation)
    (hFind : db.findInvitationByToken t = some inv)
    (hExp : ¬ inv.expires_at < now)
    (hMis : u.email.map lowerStr ≠ some (lowerStr inv.email)) :
    acceptInvitation db t u now
      = ⟨db, .error, "This invitation was sent to " ++ inv.email
            ++ ". Please sign in with that email address."⟩ := by
  have hexp : invitationExpired inv now = false := by
    simpa [invitationExpired] using hExp
  have hmis : emailMismatch u inv = true := by
    simpa [emailMismatch, bne_iff_ne] using hMis
  simp [acceptInvitation, hFind, hexp, hmis]

/-- Witness for C8: caller carol@x.com against an invitation for
bob@x.com; the flow errors naming bob@x.com and leaves the store alone. -/
theorem C8_email_mismatch_witness :
    acceptInvitation
      (⟨[⟨1, "W", "w", none, some 2⟩], [],
        [⟨10, 1, "bob@x.com", Role.member, "tok", 100, none, 0⟩]⟩ : DB)
      "tok" ⟨7, some "carol@x.com"⟩ 50
      = ⟨⟨[⟨1, "W", "w", none, some 2⟩], [],
          [⟨10, 1, "bob@x.com", Role.member, "tok", 100, none, 0⟩]⟩,
         .error, "This invitation was sent to bob@x.com. Please sign in with that email address."⟩ :=
  C8_email_mismatch
    (⟨[⟨1, "W", "w", none, some 2⟩], [],
      [⟨10, 1, "bob@x.com", Role.member, "tok", 100, none, 0⟩]⟩ : DB)
    "tok" ⟨7, some "carol@x.com"⟩ 50
    (⟨10, 1, "bob@x.com", Role.member, "tok", 100, none, 0⟩ : Invitation)
    (by decide) (by decide) (by decide)

/-- C9: when the membership insert hits the (workspace_id, user_id) unique
violation — the caller is already a member — the flow ends in the error
state "already a member" and the store is returned unchanged; in
particular the invitation row is untouched and its acceptance timestamp,
null on entry by the lookup filter, stays null. -/
theorem C9_already_member_frame (db : DB) (t : String) (u : User) (now : Int)
    (inv : Invitation) (m : WorkspaceMember)
    (hFind : db.findInvitationByToken t = some inv)
    (hExp : ¬ inv.expires_at < now)
    (hMatch : u.email.map lowerStr = some (lowerStr inv.email))
    (hMem : m ∈ db.members) (hWs : m.workspace_id = inv.workspace_id)
    (hUid : m.user_id = u.id) :
    acceptInvitation db t u now
      = ⟨db, .error, "You are already a member of this workspace"⟩
    ∧ inv.accepted_at = none := by
  have hexp : invitationExpired inv now = false := by
    simpa [invitationExpired] using hExp
  have hmis : emailMismatch u inv = false := by
    simp [emailMismatch, hMatch]
  have hany : db.members.any
      (fun x => x.workspace_id == inv.workspace_id && x.user_id == u.id) = true := by
    rw [List.any_eq_true]
    exact ⟨m, hMem, by simp [hWs, hUid]⟩
  have hacc : inv.accepted_at = none := by
    have := List.find?_some hFind
    simp only [Bool.and_eq_true, beq_iff_eq] at this
    exact this.2
  refine ⟨?_, hacc⟩
  simp [acceptInvitation, hFind, hexp, hmis, DB.insertMember, hany]

/-- Witness for C9: bob is already a member; acceptance reports "already a
member" and the invitation row keeps its null acceptance timestamp. -/
theorem C9_already_member_frame_witness :
    acceptInvitation
      (⟨[⟨1, "W", "w", none, some 2⟩], [⟨1, 7, Role.member⟩],
        [⟨10, 1, "bob@x.com", Role.member, "tok", 100, none, 0⟩]⟩ : DB)
      "tok" ⟨7, some "bob@x.com"⟩ 50
      = ⟨⟨[⟨1, "W", "w", none, some 2⟩], [⟨1, 7, Role.member⟩],
          [⟨10, 1, "bob@x.com", Role.member, "tok", 100, none, 0⟩]⟩,
         .error, "You are already a member of this workspace"⟩
    ∧ (⟨10, 1, "bob@x.com", Role.member, "tok", 100, none, 0⟩ : Invitation).accepted_at = none :=
  C9_already_member_frame
    (⟨[⟨1, "W", "w", none, some 2⟩], [⟨1, 7, Role.member⟩],
      [⟨10, 1, "bob@x.com", Role.member, "tok", 100, none, 0⟩]⟩ : DB)
    "tok" ⟨7, some "bob@x.com"⟩ 50
    (⟨10, 1, "bob@x.com", Role.member, "tok", 100, none, 0⟩ : Invitation)
    (⟨1, 7, Role.member⟩ : WorkspaceMember)
    (by decide) (by decide) (by decide) (by decide) (by decide) (by decide)

/-- The UNIQUE(workspace_id, user_id) invariant of `workspace_members`: no
two rows grant the same user membership of the same workspace. -/
def membersUnique (db : DB) : Prop :=
  db.members.Pairwise (fun a b => ¬(a.workspace_id = b.workspace_id ∧ a.user_id = b.user_id))

/-- The UNIQUE(token) invariant of `team_invitations`: a token identifies
at most one invitation row. -/
def tokenUnique (db : DB) : Prop :=
  ∀ i ∈ db.invitations, ∀ j ∈ db.invitations, i.token = j.token → i = j

/-- A successful membership insert is exactly a cons onto a table with no
conflicting (workspace_id, user_id) row. -/
theorem insertMember_ok_iff (db : DB) (m : WorkspaceMember) (db1 : DB) :
    db.insertMember m = .ok db1 ↔
      (db.members.any (fun x => x.workspace_id == m.workspace_id && x.user_id == m.user_id) = false
       ∧ db1 = { db with members := m :: db.members }) := by
  unfold DB.insertMember
  by_cases h : db.members.any
      (fun x => x.workspace_id == m.workspace_id && x.user_id == m.user_id) = true
  · simp [h]
  · simp only [Bool.not_eq_true] at h
    simp [h, eq_comm]

/-- One evaluation of the acceptance flow preserves the membership
uniqueness invariant: the only write to `workspace_members` is an insert
guarded by the unique constraint. -/
theorem accept_preserves_membersUnique (db : DB) (t : String) (u : User) (now : Int)
    (h : membersUnique db) : membersUnique (acceptInvitation db t u now).db := by
  unfold acceptInvitation
  cases hf : db.findInvitationByToken t with
  | none => exact h
  | some inv =>
    by_cases h1 : invitationExpired inv now = true
    · simp [h1]; exact h
    · rw [Bool.not_eq_true] at h1
      by_cases h2 : emailMismatch u inv = true
      · simp [h1, h2]; exact h
      · rw [Bool.not_eq_true] at h2
        cases hins : db.insertMember ⟨inv.workspace_id, u.id, inv.role⟩ with
        | error e => cases e; simp [h1, h2, hins]; exact h
        | ok db1 =>
          simp only [h1, h2, hins, Bool.false_eq_true, if_false]
          obtain ⟨hany, rfl⟩ := (insertMember_ok_iff db _ db1).1 hins
          simp only [List.any_eq_false] at hany
          unfold membersUnique at h ⊢
          simp only [DB.markAccepted, List.pairwise_cons]
          refine ⟨?_, h⟩
          intro b hb hcontra
          have := hany b hb
          simp only [Bool.and_eq_true, beq_iff_eq, not_and] at this
          exact this hcontra.1.symm hcontra.2.symm

/-- When the token lookup finds no unaccepted row, the flow is the
terminal "expired or already used" error with the store unchanged. -/
theorem accept_lookup_none (db : DB) (t : String) (u : User) (now : Int)
    (h : db.findInvitationByToken t = none) :
    acceptInvitation db t u now
      = ⟨db, .error, "This invitation has expired or has already been used"⟩ := by
  simp [acceptInvitation, h]

/-- A successful acceptance is exactly: the lookup found an unaccepted
invitation, the membership insert succeeded, and the store afterwards is
that insert followed by stamping the invitation's acceptance timestamp. -/
theorem accept_success_characterization (db : DB) (t : String) (u : User) (now : Int)
    (hs : (acceptInvitation db t u now).status = .success) :
    ∃ inv db1, db.findInvitationByToken t = some inv
      ∧ db.insertMember ⟨inv.workspace_id, u.id, inv.role⟩ = .ok db1
      ∧ (acceptInvitation db t u now).db = db1.markAccepted inv.id now := by
  unfold acceptInvitation at hs ⊢
  cases hf : db.findInvitationByToken t with
  | none => rw [hf] at hs; simp at hs
  | some inv =>
    rw [hf] at hs
    by_cases h1 : invitationExpired inv now = true
    · simp [h1] at hs
    · rw [Bool.not_eq_true] at h1
      by_cases h2 : emailMismatch u inv = true
      · simp [h1, h2] at hs
      · rw [Bool.not_eq_true] at h2
        cases hins : db.insertMember ⟨inv.workspace_id, u.id, inv.role⟩ with
        | error e => cases e; simp [h1, h2, hins] at hs
        | ok db1 =>
          refine ⟨inv, db1, rfl, hins, ?_⟩
          simp [h1, h2, hins]

/-- After stamping the acceptance timestamp of the row a token lookup
found, no unaccepted row with that token remains (tokens are unique). -/
theorem findByToken_after_mark (db : DB) (t : String) (inv : Invitation) (now : Int)
    (hTok : tokenUnique db)
    (hf : db.findInvitationByToken t = some inv) :
    (DB.markAccepted db inv.id now).findInvitationByToken t = none := by
  unfold DB.findInvitationByToken at hf ⊢
  unfold DB.markAccepted
  rw [List.find?_eq_none]
  intro x hx
  simp only [List.mem_map] at hx
  obtain ⟨i, hi, rfl⟩ := hx
  have hpinv := List.find?_some hf
  have hminv := List.mem_of_find?_eq_some hf
  simp only [Bool.and_eq_true, beq_iff_eq] at hpinv
  by_cases hid : (i.id == inv.id) = true
  · simp [hid]
  · rw [Bool.not_eq_true] at hid
    simp only [hid, Bool.false_eq_true, if_false]
    intro hpi
    simp only [Bool.and_eq_true, beq_iff_eq] at hpi
    have : i = inv := hTok i hi inv hminv (hpi.1.trans hpinv.1.symm)
    rw [this] at hid
    simp at hid

/-- Once an acceptance has succeeded, any further attempt with the same
token ends in the error state: the lookup filters on a null acceptance
timestamp, which the success just stamped. -/
theorem accept_success_replay_error (db : DB) (t : String) (u₁ : User) (now₁ : Int)
    (hTok : tokenUnique db)
    (hs : (acceptInvitation db t u₁ now₁).status = .success)
    (u₂ : User) (now₂ : Int) :
    (acceptInvitation (acceptInvitation db t u₁ now₁).db t u₂ now₂).status
      = .error := by
  obtain ⟨inv, db1, hf, hins, hdb⟩ := accept_success_characterization db t u₁ now₁ hs
  obtain ⟨hany, rfl⟩ := (insertMember_ok_iff db _ db1).1 hins
  have hTok1 : tokenUnique
      { db with members := ⟨inv.workspace_id, u₁.id, inv.role⟩ :: db.members } := hTok
  have hf1 : ({ db with members := ⟨inv.workspace_id, u₁.id, inv.role⟩ :: db.members } : DB).findInvitationByToken t
      = some inv := hf
  have hnone := findByToken_after_mark _ t inv now₁ hTok1 hf1
  rw [hdb, accept_lookup_none _ t u₂ now₂ hnone]

/-- A concrete store used to witness C2: one workspace, no members yet,
and one pending invitation for bob@x.com with token "tok". -/
def dbC2 : DB :=
  ⟨[⟨1, "W", "w", none, some 2⟩], [],
   [⟨10, 1, "bob@x.com", Role.member, "tok", 100, none, 0⟩]⟩

/-- The authenticated user bob used to witness C2. -/
def uC2 : User := ⟨7, some "bob@x.com"⟩

/-- C2: under the table's unique constraints, accepting a token twice
(same or different caller) never yields two membership rows for the same
(workspace, user) pair — the uniqueness invariant is preserved across both
attempts — and when the first acceptance succeeded the second attempt
terminates in the error state. -/
theorem C2_accept_replay_safe (db : DB) (t : String) (u₁ u₂ : User) (now₁ now₂ : Int)
    (hMem : membersUnique db) (hTok : tokenUnique db) :
    membersUnique (acceptInvitation db t u₁ now₁).db
    ∧ membersUnique (acceptInvitation (acceptInvitation db t u₁ now₁).db t u₂ now₂).db
    ∧ ((acceptInvitation db t u₁ now₁).status = .success →
        (acceptInvitation (acceptInvitation db t u₁ now₁).db t u₂ now₂).status = .error) :=
  ⟨accept_preserves_membersUnique db t u₁ now₁ hMem,
   accept_preserves_membersUnique _ t u₂ now₂
     (accept_preserves_membersUnique db t u₁ now₁ hMem),
   fun hs => accept_success_replay_error db t u₁ now₁ hTok hs u₂ now₂⟩

/-- Witness for C2: bob accepts his invitation at time 50 and the same
token is replayed at time 60; the membership table stays duplicate-free
and the replay errors. -/
theorem C2_accept_replay_safe_witness :
    membersUnique (acceptInvitation dbC2 "tok" uC2 50).db
    ∧ membersUnique (acceptInvitation (acceptInvitation dbC2 "tok" uC2 50).db "tok" uC2 60).db
    ∧ ((acceptInvitation dbC2 "tok" uC2 50).status = .success →
        (acceptInvitation (acceptInvitation dbC2 "tok" uC2 50).db "tok" uC2 60).status = .error) :=
  C2_accept_replay_safe dbC2 "tok" uC2 uC2 50 60
    (by unfold membersUnique dbC2; decide) (by unfold tokenUnique dbC2; decide)

/-- Stamping an id that occurs nowhere in a list of invitation rows leaves
the list unchanged. -/
theorem markAccepted_map_of_fresh (l : List Invitation) (invId : Nat) (now : Int)
    (h : ∀ i ∈ l, i.id ≠ invId) :
    l.map (fun i => if i.id == invId then { i with accepted_at := some now } else i) = l := by
  induction l with
  | nil => rfl
  | cons a l ih =>
    have ha : (a.id == invId) = false := by
      simp only [beq_eq_false_iff_ne, ne_eq]
      exact h a (List.mem_cons_self a l)
    simp only [List.map_cons, ha, Bool.false_eq_true, if_false, List.cons.injEq, true_and]
    exact ih (fun i hi => h i (List.mem_cons_of_mem a hi))

/-- C3: round-trip.  An invitation freshly created by the handler, when
its token is accepted before expiry by a caller whose email matches the
invited (lowercased) address and who is not yet a member, yields exactly
one new membership row carrying the invited workspace and role, stamps the
invitation's acceptance timestamp non-null, and reaches the success
state. -/
theorem C3_create_accept_roundtrip (db : DB) (req : InvitationRequest)
    (origin : Option String) (freshId : Nat) (freshToken : String) (now₁ : Int)
    (k e : Bool) (u : User) (now₂ : Int)
    (hPair : db.invitations.any
      (fun x => x.workspace_id == req.workspaceId && x.email == lowerStr req.email) = false)
    (hTok : db.invitations.any (fun x => x.token == freshToken) = false)
    (hId : ∀ i ∈ db.invitations, i.id ≠ freshId)
    (hEmail : u.email.map lowerStr
      = some (lowerStr (newInvitation req freshId freshToken now₁).email))
    (hNotMember : db.members.any
      (fun m => m.workspace_id == req.workspaceId && m.user_id == u.id) = false)
    (hTime : now₂ < now₁ + sevenDays) :
    (acceptInvitation (sendInvitation db req origin freshId freshToken now₁ k e).db
        freshToken u now₂).status = .success
    ∧ (acceptInvitation (sendInvitation db req origin freshId freshToken now₁ k e).db
        freshToken u now₂).db.members
        = ⟨req.workspaceId, u.id, req.role⟩ :: db.members
    ∧ (acceptInvitation (sendInvitation db req origin freshId freshToken now₁ k e).db
        freshToken u now₂).db.invitations
        = { newInvitation req freshId freshToken now₁ with accepted_at := some now₂ }
            :: db.invitations := by
  have hsend : (sendInvitation db req origin freshId freshToken now₁ k e).db
      = { db with invitations := newInvitation req freshId freshToken now₁ :: db.invitations } := by
    simp [sendInvitation, DB.insertInvitation, newInvitation, hPair, hTok]
  rw [hsend]
  have hfind : ({ db with
        invitations := newInvitation req freshId freshToken now₁ :: db.invitations } : DB).findInvitationByToken
        freshToken = some (newInvitation req freshId freshToken now₁) := by
    unfold DB.findInvitationByToken
    exact List.find?_cons_of_pos _ (by simp [newInvitation])
  have hexp : invitationExpired (newInvitation req freshId freshToken now₁) now₂ = false := by
    simp only [invitationExpired, newInvitation, decide_eq_false_iff_not, not_lt]
    omega
  have hmis : emailMismatch u (newInvitation req freshId freshToken now₁) = false := by
    simp [emailMismatch, hEmail]
  have hins : ({ db with
        invitations := newInvitation req freshId freshToken now₁ :: db.invitations } : DB).insertMember
        ⟨(newInvitation req freshId freshToken now₁).workspace_id, u.id,
          (newInvitation req freshId freshToken now₁).role⟩
      = .ok { db with
          invitations := newInvitation req freshId freshToken now₁ :: db.invitations,
          members := ⟨req.workspaceId, u.id, req.role⟩ :: db.members } := by
    simp [DB.insertMember, newInvitation, hNotMember]
  have hmark : ∀ dbx : DB, dbx.invitations
        = newInvitation req freshId freshToken now₁ :: db.invitations →
      (dbx.markAccepted freshId now₂).invitations
        = { newInvitation req freshId freshToken now₁ with accepted_at := some now₂ }
            :: db.invitations := by
    intro dbx hx
    unfold DB.markAccepted
    rw [hx]
    simp only [List.map_cons, newInvitation, beq_self_eq_true, if_true]
    rw [markAccepted_map_of_fresh db.invitations freshId now₂ hId]
  unfold acceptInvitation
  rw [hfind]
  simp only [hexp, hmis, Bool.false_eq_true, if_false, hins]
  refine ⟨trivial, rfl, ?_⟩
  exact hmark _ rfl

/-- A store used to witness C3: one workspace and no invitations yet. -/
def dbC3 : DB := ⟨[⟨1, "W", "w", none, some 2⟩], [], []⟩

/-- The invitation request used to witness C3 (mixed-case email). -/
def reqC3 : InvitationRequest := ⟨"Bob@X.com", 1, "W", Role.member, "Alice"⟩

/-- The accepting caller used to witness C3 (differently-cased email). -/
def uC3 : User := ⟨7, some "BOB@x.com"⟩

/-- Witness for C3: invite Bob@X.com to workspace 1, accept with
BOB@x.com at time 50 (before expiry): success, one member row, stamped
invitation. -/
theorem C3_create_accept_roundtrip_witness :
    (acceptInvitation (sendInvitation dbC3 reqC3 none 10 "tok" 0 false false).db
        "tok" uC3 50).status = .success
    ∧ (acceptInvitation (sendInvitation dbC3 reqC3 none 10 "tok" 0 false false).db
        "tok" uC3 50).db.members
        = ⟨reqC3.workspaceId, uC3.id, reqC3.role⟩ :: dbC3.members
    ∧ (acceptInvitation (sendInvitation dbC3 reqC3 none 10 "tok" 0 false false).db
        "tok" uC3 50).db.invitations
        = { newInvitation reqC3 10 "tok" 0 with accepted_at := some 50 } :: dbC3.invitations :=
  C3_create_accept_roundtrip dbC3 reqC3 none 10 "tok" 0 false false uC3 50
    (by decide) (by decide) (by decide) (by decide) (by decide) (by decide)

/-- When no row conflicts on (workspace_id, email) or token, the handler
insert succeeds and the response carries the fresh invitation, its URL,
and the email outcome. -/
theorem sendInvitation_insert_ok (db : DB) (req : InvitationRequest)
    (origin : Option String) (freshId : Nat) (freshToken : String) (now : Int)
    (k e : Bool)
    (hPair : db.invitations.any
      (fun x => x.workspace_id == req.workspaceId && x.email == lowerStr req.email) = false)
    (hTok : db.invitations.any (fun x => x.token == freshToken) = false) :
    sendInvitation db req origin freshId freshToken now k e
      = ⟨{ db with invitations := newInvitation req freshId freshToken now :: db.invitations },
         .success (newInvitation req freshId freshToken now)
           (inviteUrlFor origin freshToken) (k && e), k⟩ := by
  simp [sendInvitation, DB.insertInvitation, newInvitation, hPair, hTok]

/-- When a row for the (workspace, lowercased email) pair already exists,
the handler insert fails with the unique violation and the fallback
returns that row — whatever its acceptance status — with its own token's
URL, leaving the store unchanged. -/
theorem sendInvitation_dup (db : DB) (req : InvitationRequest)
    (origin : Option String) (freshId : Nat) (freshToken : String) (now : Int)
    (k e : Bool) (ex : Invitation)
    (hFind : db.findInvitationByPair req.workspaceId (lowerStr req.email) = some ex) :
    sendInvitation db req origin freshId freshToken now k e
      = ⟨db, .success ex (inviteUrlFor origin ex.token) (k && e), k⟩ := by
  unfold DB.findInvitationByPair at hFind
  have hp := List.find?_some hFind
  have hm := List.mem_of_find?_eq_some hFind
  have hany : db.invitations.any
      (fun x => x.workspace_id == req.workspaceId && x.email == lowerStr req.email) = true := by
    rw [List.any_eq_true]
    exact ⟨ex, hm, hp⟩
  simp [sendInvitation, DB.insertInvitation, newInvitation, hany,
    DB.findInvitationByPair, hFind]

/-- C4: invitation creation is idempotent per (workspace, email) pair: a
repeat call (any origin, fresh id/token, time, email availability) creates
no second row, returns the same invitation record, embeds the same token
in the acceptance URL, and the store holds exactly one row for the pair. -/
theorem C4_create_idempotent (db : DB) (req₁ req₂ : InvitationRequest)
    (origin₁ origin₂ : Option String) (f₁ : Nat) (t₁ : String) (n₁ : Int)
    (k₁ e₁ : Bool) (f₂ : Nat) (t₂ : String) (n₂ : Int) (k₂ e₂ : Bool)
    (hPair : db.invitations.any
      (fun x => x.workspace_id == req₁.workspaceId && x.email == lowerStr req₁.email) = false)
    (hTok : db.invitations.any (fun x => x.token == t₁) = false)
    (hWs : req₂.workspaceId = req₁.workspaceId)
    (hEm : lowerStr req₂.email = lowerStr req₁.email) :
    (sendInvitation (sendInvitation db req₁ origin₁ f₁ t₁ n₁ k₁ e₁).db
        req₂ origin₂ f₂ t₂ n₂ k₂ e₂).db
      = (sendInvitation db req₁ origin₁ f₁ t₁ n₁ k₁ e₁).db
    ∧ (sendInvitation db req₁ origin₁ f₁ t₁ n₁ k₁ e₁).response
      = .success (newInvitation req₁ f₁ t₁ n₁) (inviteUrlFor origin₁ t₁) (k₁ && e₁)
    ∧ (sendInvitation (sendInvitation db req₁ origin₁ f₁ t₁ n₁ k₁ e₁).db
        req₂ origin₂ f₂ t₂ n₂ k₂ e₂).response
      = .success (newInvitation req₁ f₁ t₁ n₁) (inviteUrlFor origin₂ t₁) (k₂ && e₂)
    ∧ (sendInvitation db req₁ origin₁ f₁ t₁ n₁ k₁ e₁).db.invitations.countP
        (fun x => x.workspace_id == req₁.workspaceId && x.email == lowerStr req₁.email) = 1 := by
  have h₁ := sendInvitation_insert_ok db req₁ origin₁ f₁ t₁ n₁ k₁ e₁ hPair hTok
  have hfind : ((sendInvitation db req₁ origin₁ f₁ t₁ n₁ k₁ e₁).db).findInvitationByPair
      req₂.workspaceId (lowerStr req₂.email) = some (newInvitation req₁ f₁ t₁ n₁) := by
    rw [h₁, hWs, hEm]
    unfold DB.findInvitationByPair
    exact List.find?_cons_of_pos _ (by simp [newInvitation])
  have h₂ := sendInvitation_dup _ req₂ origin₂ f₂ t₂ n₂ k₂ e₂ _ hfind
  refine ⟨?_, ?_, ?_, ?_⟩
  · rw [h₂]
  · rw [h₁]
  · rw [h₂]
    rfl
  · rw [h₁]
    have h0 : db.invitations.countP
        (fun x => x.workspace_id == req₁.workspaceId && x.email == lowerStr req₁.email) = 0 := by
      rw [List.countP_eq_zero]
      simpa only [List.any_eq_false] using hPair
    have hpos : (fun x => x.workspace_id == req₁.workspaceId
        && x.email == lowerStr req₁.email) (newInvitation req₁ f₁ t₁ n₁) = true := by
      simp [newInvitation]
    simp [List.countP_cons, hpos, h0]

/-- A repeat request for the same (workspace, email) pair as `reqC3`, with
different casing, role, inviter. -/
def reqC4 : InvitationRequest := ⟨"BOB@X.COM", 1, "W", Role.admin, "Erin"⟩

/-- Witness for C4: invite Bob twice to workspace 1 (different casing,
fresh token, origin and time on the repeat): the store is unchanged by the
second call, both responses carry the first invitation and its token
"tok", and exactly one row exists for the pair. -/
theorem C4_create_idempotent_witness :
    (sendInvitation (sendInvitation dbC3 reqC3 none 10 "tok" 0 false false).db
        reqC4 (some "https://x.dev") 11 "tok2" 5 true false).db
      = (sendInvitation dbC3 reqC3 none 10 "tok" 0 false false).db
    ∧ (sendInvitation dbC3 reqC3 none 10 "tok" 0 false false).response
      = .success (newInvitation reqC3 10 "tok" 0) (inviteUrlFor none "tok") (false && false)
    ∧ (sendInvitation (sendInvitation dbC3 reqC3 none 10 "tok" 0 false false).db
        reqC4 (some "https://x.dev") 11 "tok2" 5 true false).response
      = .success (newInvitation reqC3 10 "tok" 0)
          (inviteUrlFor (some "https://x.dev") "tok") (true && false)
    ∧ (sendInvitation dbC3 reqC3 none 10 "tok" 0 false false).db.invitations.countP
        (fun x => x.workspace_id == reqC3.workspaceId && x.email == lowerStr reqC3.email) = 1 :=
  C4_create_idempotent dbC3 reqC3 reqC4 none (some "https://x.dev")
    10 "tok" 0 false false 11 "tok2" 5 true false
    (by decide) (by decide) (by decide) (by decide)

/-- C5: when the invitation insert succeeds, or a row for the pair exists
for the duplicate fallback, the handler answers HTTP 200 success for
either email outcome: the response always carries the acceptance URL built
from the returned invitation's token and an emailSent flag recording
whether the send was attempted and succeeded. -/
theorem C5_email_failure_nonfatal (db : DB) (req : InvitationRequest)
    (origin : Option String) (freshId : Nat) (freshToken : String) (now : Int)
    (k e : Bool)
    (H : (db.invitations.any
            (fun x => x.workspace_id == req.workspaceId && x.email == lowerStr req.email) = false
          ∧ db.invitations.any (fun x => x.token == freshToken) = false)
      ∨ ∃ ex, db.findInvitationByPair req.workspaceId (lowerStr req.email) = some ex) :
    ∃ inv, (sendInvitation db req origin freshId freshToken now k e).response
        = .success inv (inviteUrlFor origin inv.token) (k && e)
      ∧ statusCode (sendInvitation db req origin freshId freshToken now k e).response = 200 := by
  rcases H with ⟨hPair, hTok⟩ | ⟨ex, hex⟩
  · rw [sendInvitation_insert_ok db req origin freshId freshToken now k e hPair hTok]
    exact ⟨newInvitation req freshId freshToken now, rfl, rfl⟩
  · rw [sendInvitation_dup db req origin freshId freshToken now k e ex hex]
    exact ⟨ex, rfl, rfl⟩

/-- Witness for C5: API key present but the email send fails (e = false);
the request still succeeds with the URL and emailSent = false. -/
theorem C5_email_failure_nonfatal_witness :
    ∃ inv, (sendInvitation dbC3 reqC3 none 12 "tok5" 0 true false).response
        = .success inv (inviteUrlFor none inv.token) (true && false)
      ∧ statusCode (sendInvitation dbC3 reqC3 none 12 "tok5" 0 true false).response = 200 :=
  C5_email_failure_nonfatal dbC3 reqC3 none 12 "tok5" 0 true false
    (Or.inl ⟨by decide, by decide⟩)

/-- C7 counterexample: the duplicate fallback does NOT restrict itself to
an unaccepted invitation.  Here the only row for (workspace 1,
bob@x.com) has acceptance timestamp 50, yet the handler reuses it,
resends its token t0 and reports success. -/
theorem C7_fallback_counterexample :
    (sendInvitation
      (⟨[⟨1, "W", "w", none, some 2⟩], [],
        [⟨10, 1, "bob@x.com", Role.member, "t0", 100, some 50, 0⟩]⟩ : DB)
      ⟨"Bob@X.com", 1, "W", Role.member, "Alice"⟩ none 99 "t1" 0 false false).response
      = .success (⟨10, 1, "bob@x.com", Role.member, "t0", 100, some 50, 0⟩ : Invitation)
          (inviteUrlFor none "t0") false
    ∧ (⟨10, 1, "bob@x.com", Role.member, "t0", 100, some 50, 0⟩ : Invitation).accepted_at
        = some 50 := by
  constructor
  · decide
  · rfl

/-- C7 amended: when the insert fails on the (workspace, email) unique
constraint, the fallback fetches the existing invitation for that pair
regardless of its acceptance status (the fetch does not filter on a null
acceptance timestamp), rebuilds its acceptance URL and returns HTTP 200
success, leaving the store unchanged. -/
theorem C7_duplicate_fallback_amended (db : DB) (req : InvitationRequest)
    (origin : Option String) (freshId : Nat) (freshToken : String) (now : Int)
    (k e : Bool) (ex : Invitation)
    (hFind : db.findInvitationByPair req.workspaceId (lowerStr req.email) = some ex) :
    (sendInvitation db req origin freshId freshToken now k e).response
      = .success ex (inviteUrlFor origin ex.token) (k && e)
    ∧ (sendInvitation db req origin freshId freshToken now k e).db = db
    ∧ statusCode (sendInvitation db req origin freshId freshToken now k e).response = 200 := by
  rw [sendInvitation_dup db req origin freshId freshToken now k e ex hFind]
  exact ⟨rfl, rfl, rfl⟩

/-- Witness for C7 (amended): the pair row is an already-accepted
invitation and is still the one reused. -/
theorem C7_duplicate_fallback_amended_witness :
    (sendInvitation
      (⟨[⟨1, "W", "w", none, some 2⟩], [],
        [⟨10, 1, "bob@x.com", Role.member, "t0", 100, some 50, 0⟩]⟩ : DB)
      ⟨"Bob@X.com", 1, "W", Role.member, "Alice"⟩ none 99 "t1" 7 true true).response
      = .success (⟨10, 1, "bob@x.com", Role.member, "t0", 100, some 50, 0⟩ : Invitation)
          (inviteUrlFor none
            (⟨10, 1, "bob@x.com", Role.member, "t0", 100, some 50, 0⟩ : Invitation).token)
          (true && true)
    ∧ (sendInvitation
      (⟨[⟨1, "W", "w", none, some 2⟩], [],
        [⟨10, 1, "bob@x.com", Role.member, "t0", 100, some 50, 0⟩]⟩ : DB)
      ⟨"Bob@X.com", 1, "W", Role.member, "Alice"⟩ none 99 "t1" 7 true true).db
      = (⟨[⟨1, "W", "w", none, some 2⟩], [],
          [⟨10, 1, "bob@x.com", Role.member, "t0", 100, some 50, 0⟩]⟩ : DB)
    ∧ statusCode (sendInvitation
      (⟨[⟨1, "W", "w", none, some 2⟩], [],
        [⟨10, 1, "bob@x.com", Role.member, "t0", 100, some 50, 0⟩]⟩ : DB)
      ⟨"Bob@X.com", 1, "W", Role.member, "Alice"⟩ none 99 "t1" 7 true true).response = 200 :=
  C7_duplicate_fallback_amended
    (⟨[⟨1, "W", "w", none, some 2⟩], [],
      [⟨10, 1, "bob@x.com", Role.member, "t0", 100, some 50, 0⟩]⟩ : DB)
    ⟨"Bob@X.com", 1, "W", Role.member, "Alice"⟩ none 99 "t1" 7 true true
    (⟨10, 1, "bob@x.com", Role.member, "t0", 100, some 50, 0⟩ : Invitation)
    (by decide)

/-- C10: with the RESEND_API_KEY environment variable unset the handler
never attempts an outbound send, and (when the insert or the duplicate
fallback succeeds) still answers HTTP 200 success with the invitation,
its acceptance URL, and emailSent = false. -/
theorem C10_missing_api_key (db : DB) (req : InvitationRequest)
    (origin : Option String) (freshId : Nat) (freshToken : String) (now : Int)
    (e : Bool)
    (H : (db.invitations.any
            (fun x => x.workspace_id == req.workspaceId && x.email == lowerStr req.email) = false
          ∧ db.invitations.any (fun x => x.token == freshToken) = false)
      ∨ ∃ ex, db.findInvitationByPair req.workspaceId (lowerStr req.email) = some ex) :
    (sendInvitation db req origin freshId freshToken now false e).emailAttempted = false
    ∧ ∃ inv, (sendInvitation db req origin freshId freshToken now false e).response
        = .success inv (inviteUrlFor origin inv.token) false
      ∧ statusCode (sendInvitation db req origin freshId freshToken now false e).response = 200 := by
  rcases H with ⟨hPair, hTok⟩ | ⟨ex, hex⟩
  · rw [sendInvitation_insert_ok db req origin freshId freshToken now false e hPair hTok]
    exact ⟨rfl, newInvitation req freshId freshToken now, rfl, rfl⟩
  · rw [sendInvitation_dup db req origin freshId freshToken now false e ex hex]
    exact ⟨rfl, ex, rfl, rfl⟩

/-- Witness for C10: no API key configured; the handler creates the
invitation, attempts no send, and answers 200 with emailSent = false. -/
theorem C10_missing_api_key_witness :
    (sendInvitation dbC3 reqC3 none 13 "tok6" 0 false true).emailAttempted = false
    ∧ ∃ inv, (sendInvitation dbC3 reqC3 none 13 "tok6" 0 false true).response
        = .success inv (inviteUrlFor none inv.token) false
      ∧ statusCode (sendInvitation dbC3 reqC3 none 13 "tok6" 0 false true).response = 200 :=
  C10_missing_api_key dbC3 reqC3 none 13 "tok6" 0 true
    (Or.inl ⟨by decide, by decide⟩)
